import Mathlib

/-!
Shallow embedding of `services/map-processor/main.py` (splitmark repository):
the affine GCP solver `solve_affine`, the GDAL pipeline orchestrator
`run_gdal_pipeline`, and the two Flask endpoints `index` (POST /) and
`verify_pipeline` (POST /verify-pipeline).

Numbers are modelled by `ℚ` (exact arithmetic standing for the source's
floats), external processes by an exit-code oracle `List String → Int`,
and Python exceptions by explicit outcome types mirroring the source's
`except` clauses.
-/

/-! ## Linear algebra: model of `numpy.linalg.lstsq` for an n×3 system

`np.linalg.lstsq(P, b, rcond=None)` raises `LinAlgError("Incompatible
dimensions")` when `P` and `b` have a different number of rows, and
otherwise returns the minimum-norm least-squares solution `P⁺ b`
(Moore–Penrose pseudoinverse).  For a square full-rank `P` this is the
unique exact solution, computed here by Cramer's rule; in every other
case it is computed by Greville's column-recursive pseudoinverse
algorithm, which is exact over `ℚ`. -/

/-- Determinant of a 3×3 matrix given as three rows `(a, b, c)`. -/
def det3r (r1 r2 r3 : ℚ × ℚ × ℚ) : ℚ :=
  r1.1 * (r2.2.1 * r3.2.2 - r3.2.1 * r2.2.2)
    - r2.1 * (r1.2.1 * r3.2.2 - r3.2.1 * r1.2.2)
    + r3.1 * (r1.2.1 * r2.2.2 - r2.2.1 * r1.2.2)

/-- Cramer's rule for the square system with rows `r1 r2 r3` and
right-hand side `(b1, b2, b3)`. -/
def cramer3 (r1 r2 r3 : ℚ × ℚ × ℚ) (b1 b2 b3 : ℚ) : ℚ × ℚ × ℚ :=
  let D := det3r r1 r2 r3
  ( det3r (b1, r1.2) (b2, r2.2) (b3, r3.2) / D,
    det3r (r1.1, b1, r1.2.2) (r2.1, b2, r2.2.2) (r3.1, b3, r3.2.2) / D,
    det3r (r1.1, r1.2.1, b1) (r2.1, r2.2.1, b2) (r3.1, r3.2.1, b3) / D )

/-- Dot product of two rational vectors. -/
def dotl (u v : List ℚ) : ℚ := (List.zipWith (· * ·) u v).sum

/-- Scalar multiple of a rational vector. -/
def smul (a : ℚ) (v : List ℚ) : List ℚ := v.map (a * ·)

/-- Componentwise difference of two rational vectors. -/
def vsub (u v : List ℚ) : List ℚ := List.zipWith (· - ·) u v

/-- Componentwise sum of two rational vectors. -/
def vadd (u v : List ℚ) : List ℚ := List.zipWith (· + ·) u v

/-- Moore–Penrose pseudoinverse of the n×3 matrix with columns
`a1 a2 a3`, computed by Greville's algorithm (exact over `ℚ`).
Returns the three rows of the 3×n pseudoinverse. -/
def pinv3cols (a1 a2 a3 : List ℚ) : List ℚ × List ℚ × List ℚ :=
  let z1 := if dotl a1 a1 = 0 then a1.map (fun _ => 0) else smul (1 / dotl a1 a1) a1
  let d1 := dotl z1 a2
  let c2 := vsub a2 (smul d1 a1)
  let b2 := if dotl c2 c2 ≠ 0 then smul (1 / dotl c2 c2) c2
            else smul (1 / (1 + d1 * d1)) (smul d1 z1)
  let z1b := vsub z1 (smul d1 b2)
  let e1 := dotl z1b a3
  let e2 := dotl b2 a3
  let c3 := vsub a3 (vadd (smul e1 a1) (smul e2 a2))
  let b3 := if dotl c3 c3 ≠ 0 then smul (1 / dotl c3 c3) c3
            else smul (1 / (1 + e1 * e1 + e2 * e2)) (vadd (smul e1 z1b) (smul e2 b2))
  (vsub z1b (smul e1 b3), vsub b2 (smul e2 b3), b3)

/-- Minimum-norm least-squares solution `P⁺ b` of the n×3 system with
rows `rows` and right-hand side `b`, via the pseudoinverse of the
column matrix. -/
def pinvSolve (rows : List (ℚ × ℚ × ℚ)) (b : List ℚ) : ℚ × ℚ × ℚ :=
  let Z := pinv3cols (rows.map (·.1)) (rows.map (·.2.1)) (rows.map (·.2.2))
  (dotl Z.1 b, dotl Z.2.1 b, dotl Z.2.2 b)

/-- Minimum-norm least-squares solution returned by
`np.linalg.lstsq(P, b, rcond=None)` once the dimension check passed.
For a square (3×3) nonsingular system this is the unique exact
solution (Cramer's rule, which coincides with `P⁺ b` there); in every
other case it is `P⁺ b` via Greville's algorithm. -/
def minNormSolution (rows : List (ℚ × ℚ × ℚ)) (b : List ℚ) : ℚ × ℚ × ℚ :=
  match rows, b with
  | [r1, r2, r3], [b1, b2, b3] =>
    if det3r r1 r2 r3 ≠ 0 then cramer3 r1 r2 r3 b1 b2 b3
    else pinvSolve [r1, r2, r3] [b1, b2, b3]
  | rs, bs => pinvSolve rs bs

/-- The only `numpy.linalg.LinAlgError` reachable on finite inputs in
`solve_affine`: `lstsq`'s shape check `m != m2` (row counts of `P` and
of the target differ). -/
inductive LinAlgErr where
  | incompatibleDimensions
deriving DecidableEq

/-- Model of `np.linalg.lstsq(P, b, rcond=None)` restricted to an n×3
design matrix: raises (`Except.error`) exactly on mismatched row
counts, otherwise returns the minimum-norm least-squares solution. -/
def lstsq (rows : List (ℚ × ℚ × ℚ)) (b : List ℚ) : Except LinAlgErr (ℚ × ℚ × ℚ) :=
  if rows.length ≠ b.length then .error .incompatibleDimensions
  else .ok (minNormSolution rows b)

/-! ## `solve_affine` (main.py lines 18–61) -/

/-- The dictionary returned by `solve_affine` on success: exactly the
six keys `A B C D E F` with `lon = A·x + B·y + C`, `lat = D·x + E·y + F`. -/
structure Coeffs where
  A : ℚ
  B : ℚ
  C : ℚ
  D : ℚ
  E : ℚ
  F : ℚ
deriving DecidableEq

/-- Which of `solve_affine`'s paths terminated the call: normal return
of the coefficient dictionary, the `except np.linalg.LinAlgError`
handler (line 56), or the generic `except Exception` handler (line 59,
which is the one that catches the `ValueError("At least 3 points
required")` raised at line 34 — `LinAlgError` derives from
`ValueError`, not the other way around, so a plain `ValueError` is not
caught by the first handler). -/
inductive SolveOutcome where
  | ok (c : Coeffs)
  | linAlgError
  | otherError (msg : String)
deriving DecidableEq

/-- The design matrix `P` built at lines 36–38: one row `[x, y, 1]`
per pixel point. -/
def designMatrix (pixel_points : List (ℚ × ℚ)) : List (ℚ × ℚ × ℚ) :=
  pixel_points.map (fun p => (p.1, p.2, 1))

/-- Body of `solve_affine` (lines 24–61) with the `try/except`
translated to an explicit outcome.  `gps_points` entries are
`(lat, lon)`; `Target_Lon` takes second components and `Target_Lat`
first components (lines 40–41). -/
def solve_affine_run (pixel_points gps_points : List (ℚ × ℚ)) : SolveOutcome :=
  if pixel_points.length < 3 ∨ gps_points.length < 3 then
    .otherError "At least 3 points required"
  else
    let P := designMatrix pixel_points
    let targetLon := gps_points.map (·.2)
    let targetLat := gps_points.map (·.1)
    match lstsq P targetLon with
    | .error _ => .linAlgError
    | .ok lon =>
      match lstsq P targetLat with
      | .error _ => .linAlgError
      | .ok lat => .ok ⟨lon.1, lon.2.1, lon.2.2, lat.1, lat.2.1, lat.2.2⟩

/-- `solve_affine` as its caller observes it: the coefficient
dictionary, or `None` from either `except` handler. -/
def solve_affine (pixel_points gps_points : List (ℚ × ℚ)) : Option Coeffs :=
  match solve_affine_run pixel_points gps_points with
  | .ok c => some c
  | _ => none

/-- Noncollinearity of the three pixel points, expressed as the
standard nonvanishing of the determinant of the design matrix rows
`[x, y, 1]`; this also rules out repeated points. -/
def noncollinear (p1 p2 p3 : ℚ × ℚ) : Prop :=
  det3r (p1.1, p1.2, 1) (p2.1, p2.2, 1) (p3.1, p3.2, 1) ≠ 0

/-! ## `run_gdal_pipeline` (main.py lines 63–119)

External processes are modelled by an exit-code oracle
`exit : List String → Int` giving the exit status of each command
line.  `subprocess.check_call` raises `CalledProcessError` on a
nonzero exit status; the orchestrator's `except` clause logs and
re-raises it.  `run_gdal_pipeline` therefore returns the
`Except`-value of the run together with the trace of command lines
actually invoked, in order. -/

/-- Model of POSIX `os.path.join` for two components. -/
def os_path_join (a b : String) : String :=
  if b.startsWith "/" then b
  else if a = "" then b
  else if a.endsWith "/" then a ++ b
  else a ++ "/" ++ b

/-- A ground-control point as carried in the request JSON:
`pixel = (x, y)` (column, row) and `geo = (lat, lon)`. -/
structure GCP where
  pixel : ℚ × ℚ
  geo : ℚ × ℚ
deriving DecidableEq

/-- `subprocess.CalledProcessError`: the failed command and its
nonzero exit status. -/
structure CalledProcessError where
  cmd : List String
  returncode : Int
deriving DecidableEq

/-- The `gdal_translate` command line built at lines 75–81: the fixed
prefix, then for each GCP (in request order) the five tokens
`-gcp <pixel[0]> <pixel[1]> <geo[1]> <geo[0]>` appended by the loop,
then input path and VRT path.  Numeric rendering of Python's `str()`
is abstracted by `toString`. -/
def cmd_translate (gcps : List GCP) (input_path vrt_path : String) : List String :=
  (gcps.foldl
      (fun cmd gcp =>
        cmd ++ ["-gcp", toString gcp.pixel.1, toString gcp.pixel.2,
                toString gcp.geo.2, toString gcp.geo.1])
      ["gdal_translate", "-of", "VRT"])
    ++ [input_path, vrt_path]

/-- The `gdalwarp` command line built at lines 88–96. -/
def cmd_warp (vrt_path warped_tif : String) : List String :=
  ["gdalwarp", "-t_srs", "EPSG:3857", "-r", "lanczos",
   "-co", "COMPRESS=DEFLATE", "-co", "TILED=YES", "-dstalpha",
   vrt_path, warped_tif]

/-- The `gdal2tiles.py` command line built at lines 103–110. -/
def cmd_tiles (warped_tif tiles_dir : String) : List String :=
  ["gdal2tiles.py", "--profile=mercator", "-z", "10-18", "--processes=4",
   warped_tif, tiles_dir]

/-- `run_gdal_pipeline` (lines 63–119): three strictly sequential
`subprocess.check_call` invocations; the first nonzero exit raises
`CalledProcessError` (re-raised by the `except` clause at line 119)
and no later command is invoked.  Returns the outcome together with
the ordered trace of commands invoked. -/
def run_gdal_pipeline (exit : List String → Int) (input_path output_dir : String)
    (gcps : List GCP) : Except CalledProcessError String × List (List String) :=
  let vrt_path := os_path_join output_dir "temp.vrt"
  let cmdT := cmd_translate gcps input_path vrt_path
  if exit cmdT ≠ 0 then (.error ⟨cmdT, exit cmdT⟩, [cmdT])
  else
    let warped_tif := os_path_join output_dir "warped.tif"
    let cmdW := cmd_warp vrt_path warped_tif
    if exit cmdW ≠ 0 then (.error ⟨cmdW, exit cmdW⟩, [cmdT, cmdW])
    else
      let tiles_dir := os_path_join output_dir "tiles"
      let cmdTi := cmd_tiles warped_tif tiles_dir
      if exit cmdTi ≠ 0 then (.error ⟨cmdTi, exit cmdTi⟩, [cmdT, cmdW, cmdTi])
      else (.ok tiles_dir, [cmdT, cmdW, cmdTi])

/-! ## `verify_pipeline` endpoint (main.py lines 144–179) -/

/-- The three fields read from the request JSON by `data.get(...)`;
`none` models an absent field (Python `None`). -/
structure VerifyRequest where
  image_path : Option String
  output_dir : Option String
  gcps : Option (List GCP)

/-- Observable calls made while handling a `/verify-pipeline`
request: the pure `solve_affine` call and each external command
invocation. -/
inductive Event where
  | solveCall (pixel_points gps_points : List (ℚ × ℚ))
  | exec (cmd : List String)
deriving DecidableEq

/-- The response bodies `verify_pipeline` can produce: the
`"Missing arguments"` 400 body, the success JSON (whose
`affine_matrix` is `null` when `solve_affine` returned `None`), or
the `f"Failed: ..."` 500 body carrying the caught exception. -/
inductive VerifyResponse where
  | missingArguments
  | success (affine_matrix : Option Coeffs)
  | failed (e : CalledProcessError)
deriving DecidableEq

/-- `verify_pipeline` (lines 144–179).  `if not all([input_path,
output_dir, gcps])` is Python truthiness: an absent field, an empty
string, or an empty GCP list all yield the 400 response.  Otherwise
`solve_affine` is called on the projected pixel/geo lists (its
result is never allowed to raise), then `run_gdal_pipeline`; a
`CalledProcessError` escaping the pipeline is caught by the
`except Exception` clause and converted to the 500 response.
Returns `((body, status), events)`. -/
def verify_pipeline (exit : List String → Int) (req : VerifyRequest) :
    (VerifyResponse × Nat) × List Event :=
  match req.image_path, req.output_dir, req.gcps with
  | some input_path, some output_dir, some gcps =>
    if input_path = "" ∨ output_dir = "" ∨ gcps = [] then
      ((.missingArguments, 400), [])
    else
      let pixel_points := gcps.map (·.pixel)
      let gps_points := gcps.map (·.geo)
      let affine_matrix := solve_affine pixel_points gps_points
      let run := run_gdal_pipeline exit input_path output_dir gcps
      let events := Event.solveCall pixel_points gps_points :: run.2.map Event.exec
      match run.1 with
      | .ok _ => ((.success affine_matrix, 200), events)
      | .error e => ((.failed e, 500), events)
  | _, _, _ => ((.missingArguments, 400), [])

/-! ## `index` trigger endpoint (main.py lines 121–141) -/

/-- JSON values as delivered by `request.get_json()`. -/
inductive Json where
  | null
  | bool (b : Bool)
  | num (q : ℚ)
  | str (s : String)
  | arr (xs : List Json)
  | obj (kvs : List (String × Json))

/-- Python truthiness of a JSON value (`if not event`). -/
def Json.truthy : Json → Bool
  | .null => false
  | .bool b => b
  | .num q => if q = 0 then false else true
  | .str s => if s = "" then false else true
  | .arr xs => match xs with | [] => false | _ => true
  | .obj kvs => match kvs with | [] => false | _ => true

/-- `event.get("kind") == "storage#object"`: true exactly when the
object maps `"kind"` to that string value. -/
def isStorageObjectKind (kvs : List (String × Json)) : Bool :=
  match kvs.lookup "kind" with
  | some (Json.str s) => s = "storage#object"
  | _ => false

/-- `index` (lines 121–141), handling `POST /`.  The argument is the
result of `request.get_json()`: `none` models a body that is not
valid JSON, which the framework rejects with a 400 error before the
handler's own code runs.  A falsy parsed value takes the explicit
`"Bad Request: no JSON"` 400 return.  A truthy non-object raises
`AttributeError` on `event.get` and an object with
`kind == "storage#object"` but no `"bucket"`/`"name"` key raises
`KeyError` on the subscript, as does a non-string `name` reaching
`name.endswith` (after the short-circuit `bucket == UPLOAD_BUCKET`);
unhandled exceptions surface as the framework's 500 response.
Everything else falls through to `return "OK", 200`. -/
def index (upload_bucket : String) (body : Option Json) : Nat × String :=
  match body with
  | none => (400, "Bad Request")
  | some event =>
    if ¬ event.truthy then (400, "Bad Request: no JSON")
    else
      match event with
      | Json.obj kvs =>
        if isStorageObjectKind kvs then
          match kvs.lookup "bucket" with
          | none => (500, "Internal Server Error")
          | some bucket =>
            match kvs.lookup "name" with
            | none => (500, "Internal Server Error")
            | some name =>
              match bucket with
              | Json.str s =>
                if s = upload_bucket then
                  match name with
                  | Json.str _ => (200, "OK")
                  | _ => (500, "Internal Server Error")
                else (200, "OK")
              | _ => (200, "OK")
        else (200, "OK")
      | _ => (500, "Internal Server Error")

/-! ## Helper lemmas -/

/-- Cramer's rule solves a nonsingular 3×3 system exactly. -/
lemma cramer3_solves (r1 r2 r3 : ℚ × ℚ × ℚ) (b1 b2 b3 : ℚ)
    (h : det3r r1 r2 r3 ≠ 0) :
    (cramer3 r1 r2 r3 b1 b2 b3).1 * r1.1
        + (cramer3 r1 r2 r3 b1 b2 b3).2.1 * r1.2.1
        + (cramer3 r1 r2 r3 b1 b2 b3).2.2 * r1.2.2 = b1 ∧
    (cramer3 r1 r2 r3 b1 b2 b3).1 * r2.1
        + (cramer3 r1 r2 r3 b1 b2 b3).2.1 * r2.2.1
        + (cramer3 r1 r2 r3 b1 b2 b3).2.2 * r2.2.2 = b2 ∧
    (cramer3 r1 r2 r3 b1 b2 b3).1 * r3.1
        + (cramer3 r1 r2 r3 b1 b2 b3).2.1 * r3.2.1
        + (cramer3 r1 r2 r3 b1 b2 b3).2.2 * r3.2.2 = b3 := by
  have hD : det3r r1 r2 r3 ≠ 0 := h
  refine ⟨?_, ?_, ?_⟩ <;>
    · simp only [cramer3, det3r] at hD ⊢
      field_simp
      ring

/-- On three pixel points with nonsingular design matrix,
`solve_affine_run` takes the exactly-determined branch of `lstsq` and
returns the two Cramer solutions. -/
lemma solve_affine_run_three (p1 p2 p3 g1 g2 g3 : ℚ × ℚ)
    (h : noncollinear p1 p2 p3) :
    solve_affine_run [p1, p2, p3] [g1, g2, g3] =
      .ok ⟨(cramer3 (p1.1, p1.2, 1) (p2.1, p2.2, 1) (p3.1, p3.2, 1) g1.2 g2.2 g3.2).1,
           (cramer3 (p1.1, p1.2, 1) (p2.1, p2.2, 1) (p3.1, p3.2, 1) g1.2 g2.2 g3.2).2.1,
           (cramer3 (p1.1, p1.2, 1) (p2.1, p2.2, 1) (p3.1, p3.2, 1) g1.2 g2.2 g3.2).2.2,
           (cramer3 (p1.1, p1.2, 1) (p2.1, p2.2, 1) (p3.1, p3.2, 1) g1.1 g2.1 g3.1).1,
           (cramer3 (p1.1, p1.2, 1) (p2.1, p2.2, 1) (p3.1, p3.2, 1) g1.1 g2.1 g3.1).2.1,
           (cramer3 (p1.1, p1.2, 1) (p2.1, p2.2, 1) (p3.1, p3.2, 1) g1.1 g2.1 g3.1).2.2⟩ := by
  simp only [solve_affine_run, designMatrix, List.map, lstsq, List.length_cons,
    List.length_nil, minNormSolution, noncollinear] at h ⊢
  rw [if_neg (by omega)]
  simp [h]

/-- Unrolling an append-accumulating fold (the `cmd_translate`
GCP loop) into a flat list of per-element blocks. -/
lemma foldl_append_blocks {α : Type} (f : α → List String) (l : List α)
    (acc : List String) :
    l.foldl (fun cmd x => cmd ++ f x) acc = acc ++ (l.map f).flatten := by
  induction l generalizing acc with
  | nil => simp
  | cons x xs ih => simp [ih, List.append_assoc]

/-- Declarative form of the `gdal_translate` command line: fixed
prefix, one `-gcp` block per GCP in order, then the two paths. -/
lemma cmd_translate_eq (gcps : List GCP) (input_path vrt_path : String) :
    cmd_translate gcps input_path vrt_path =
      ["gdal_translate", "-of", "VRT"]
        ++ (gcps.map (fun gcp =>
              ["-gcp", toString gcp.pixel.1, toString gcp.pixel.2,
               toString gcp.geo.2, toString gcp.geo.1])).flatten
        ++ [input_path, vrt_path] := by
  simp [cmd_translate, foldl_append_blocks]

/-- The first token of the embed-stage command. -/
lemma cmd_translate_head (gcps : List GCP) (input_path vrt_path : String) :
    (cmd_translate gcps input_path vrt_path).head? = some "gdal_translate" := by
  rw [cmd_translate_eq]
  rfl

/-- The warp command is never the embed command (distinct leading
tokens). -/
lemma cmd_warp_ne_translate (gcps : List GCP) (ip vp wp tp : String) :
    cmd_warp wp tp ≠ cmd_translate gcps ip vp := by
  intro h
  have := congrArg List.head? h
  rw [cmd_translate_head] at this
  simp [cmd_warp] at this

/-- The tile command is never the embed command. -/
lemma cmd_tiles_ne_translate (gcps : List GCP) (ip vp wp tp : String) :
    cmd_tiles wp tp ≠ cmd_translate gcps ip vp := by
  intro h
  have := congrArg List.head? h
  rw [cmd_translate_head] at this
  simp [cmd_tiles] at this

/-- The tile command is never the warp command. -/
lemma cmd_tiles_ne_warp (wp tp wp2 tp2 : String) :
    cmd_tiles wp tp ≠ cmd_warp wp2 tp2 := by
  intro h
  have := congrArg List.head? h
  simp [cmd_tiles, cmd_warp] at this

/-- Whatever happens, the embed command opens the pipeline's trace. -/
lemma run_gdal_pipeline_trace_mem (exit : List String → Int)
    (input_path output_dir : String) (gcps : List GCP) :
    cmd_translate gcps input_path (os_path_join output_dir "temp.vrt")
      ∈ (run_gdal_pipeline exit input_path output_dir gcps).2 := by
  unfold run_gdal_pipeline
  dsimp only
  split
  · simp
  · split
    · simp
    · split <;> simp

/-! ## Claims -/

/-- C1: for every call to `solve_affine` with exactly 3
pairwise-distinct, non-collinear pixel points and 3 geo points, it
returns coefficients `A..F` such that for each input point `i`,
`A*x_i + B*y_i + C` equals the longitude `geo_i.2` and
`D*x_i + E*y_i + F` equals the latitude `geo_i.1` (exact fit; the
model's `ℚ` arithmetic is the source's floating point made exact).
Noncollinearity of the pixel points already forces them to be
pairwise distinct, which the first conjunct records. -/
theorem solve_affine_exact_fit (p1 p2 p3 g1 g2 g3 : ℚ × ℚ)
    (h : noncollinear p1 p2 p3) :
    (p1 ≠ p2 ∧ p1 ≠ p3 ∧ p2 ≠ p3) ∧
    ∃ c : Coeffs, solve_affine [p1, p2, p3] [g1, g2, g3] = some c ∧
      c.A * p1.1 + c.B * p1.2 + c.C = g1.2 ∧
      c.A * p2.1 + c.B * p2.2 + c.C = g2.2 ∧
      c.A * p3.1 + c.B * p3.2 + c.C = g3.2 ∧
      c.D * p1.1 + c.E * p1.2 + c.F = g1.1 ∧
      c.D * p2.1 + c.E * p2.2 + c.F = g2.1 ∧
      c.D * p3.1 + c.E * p3.2 + c.F = g3.1 := by
  have hd : det3r (p1.1, p1.2, 1) (p2.1, p2.2, 1) (p3.1, p3.2, 1) ≠ 0 := h
  have run_eq := solve_affine_run_three p1 p2 p3 g1 g2 g3 h
  have hlon := cramer3_solves (p1.1, p1.2, 1) (p2.1, p2.2, 1) (p3.1, p3.2, 1)
    g1.2 g2.2 g3.2 hd
  have hlat := cramer3_solves (p1.1, p1.2, 1) (p2.1, p2.2, 1) (p3.1, p3.2, 1)
    g1.1 g2.1 g3.1 hd
  refine ⟨⟨?_, ?_, ?_⟩, ?_⟩
  · intro heq; apply hd; rw [heq]; unfold det3r; ring
  · intro heq; apply hd; rw [heq]; unfold det3r; ring
  · intro heq; apply hd; rw [heq]; unfold det3r; ring
  · have some_eq : solve_affine [p1, p2, p3] [g1, g2, g3] =
        some ⟨(cramer3 (p1.1, p1.2, 1) (p2.1, p2.2, 1) (p3.1, p3.2, 1) g1.2 g2.2 g3.2).1,
              (cramer3 (p1.1, p1.2, 1) (p2.1, p2.2, 1) (p3.1, p3.2, 1) g1.2 g2.2 g3.2).2.1,
              (cramer3 (p1.1, p1.2, 1) (p2.1, p2.2, 1) (p3.1, p3.2, 1) g1.2 g2.2 g3.2).2.2,
              (cramer3 (p1.1, p1.2, 1) (p2.1, p2.2, 1) (p3.1, p3.2, 1) g1.1 g2.1 g3.1).1,
              (cramer3 (p1.1, p1.2, 1) (p2.1, p2.2, 1) (p3.1, p3.2, 1) g1.1 g2.1 g3.1).2.1,
              (cramer3 (p1.1, p1.2, 1) (p2.1, p2.2, 1) (p3.1, p3.2, 1) g1.1 g2.1 g3.1).2.2⟩ := by
      simp [solve_affine, run_eq]
    exact ⟨_, some_eq, by simpa using hlon.1, by simpa using hlon.2.1,
      by simpa using hlon.2.2, by simpa using hlat.1, by simpa using hlat.2.1,
      by simpa using hlat.2.2⟩

/-- Witness for C1 at the verification harness's synthetic GCP set:
pixels `(0,0) (1000,0) (0,1000)`, geo (lat, lon)
`(59.4, 18) (59.4, 18.2) (59.2, 18)`. -/
theorem solve_affine_exact_fit_witness :
    noncollinear (0, 0) (1000, 0) (0, 1000) ∧
    ((0 : ℚ × ℚ) ≠ (1000, 0) ∧ (0, 0) ≠ ((0 : ℚ), (1000 : ℚ)) ∧ ((1000 : ℚ), (0 : ℚ)) ≠ (0, 1000)) ∧
    ∃ c : Coeffs,
      solve_affine [(0, 0), (1000, 0), (0, 1000)]
          [(297/5, 18), (297/5, 91/5), (296/5, 18)] = some c ∧
      c.A * 0 + c.B * 0 + c.C = 18 ∧
      c.A * 1000 + c.B * 0 + c.C = 91/5 ∧
      c.A * 0 + c.B * 1000 + c.C = 18 ∧
      c.D * 0 + c.E * 0 + c.F = 297/5 ∧
      c.D * 1000 + c.E * 0 + c.F = 297/5 ∧
      c.D * 0 + c.E * 1000 + c.F = 296/5 := by
  have h : noncollinear ((0 : ℚ), (0 : ℚ)) (1000, 0) (0, 1000) := by
    unfold noncollinear det3r; norm_num
  exact ⟨h, solve_affine_exact_fit (0, 0) (1000, 0) (0, 1000)
    (297/5, 18) (297/5, 91/5) (296/5, 18) h⟩

/-- C2: for every GCP list, the embed-stage (`gdal_translate`)
command attaches each GCP, in order, as the four arguments
`pixel[0] pixel[1] geo[1] geo[0]` after `-gcp` — i.e. the stored
`(lat, lon)` geographic pair is emitted in `(lon, lat)` =
(easting, northing) order. -/
theorem cmd_translate_emits_lon_lat (gcps : List GCP) (input_path vrt_path : String) :
    cmd_translate gcps input_path vrt_path =
      ["gdal_translate", "-of", "VRT"]
        ++ (gcps.map (fun gcp =>
              ["-gcp", toString gcp.pixel.1, toString gcp.pixel.2,
               toString gcp.geo.2, toString gcp.geo.1])).flatten
        ++ [input_path, vrt_path] :=
  cmd_translate_eq gcps input_path vrt_path

/-- C3: if the embed stage exits nonzero, `run_gdal_pipeline` raises
a `CalledProcessError` identifying that command, its trace is that
single command, and neither the warp nor the tile command is ever
invoked; more generally the warp command is invoked only if the embed
command exited 0, and the tile command only if both previous stages
exited 0. -/
theorem run_gdal_pipeline_stage_ordering (exit : List String → Int)
    (input_path output_dir : String) (gcps : List GCP) :
    (exit (cmd_translate gcps input_path (os_path_join output_dir "temp.vrt")) ≠ 0 →
      (run_gdal_pipeline exit input_path output_dir gcps).1 =
          Except.error ⟨cmd_translate gcps input_path (os_path_join output_dir "temp.vrt"),
            exit (cmd_translate gcps input_path (os_path_join output_dir "temp.vrt"))⟩ ∧
      (run_gdal_pipeline exit input_path output_dir gcps).2 =
          [cmd_translate gcps input_path (os_path_join output_dir "temp.vrt")] ∧
      cmd_warp (os_path_join output_dir "temp.vrt") (os_path_join output_dir "warped.tif")
          ∉ (run_gdal_pipeline exit input_path output_dir gcps).2 ∧
      cmd_tiles (os_path_join output_dir "warped.tif") (os_path_join output_dir "tiles")
          ∉ (run_gdal_pipeline exit input_path output_dir gcps).2) ∧
    (cmd_warp (os_path_join output_dir "temp.vrt") (os_path_join output_dir "warped.tif")
        ∈ (run_gdal_pipeline exit input_path output_dir gcps).2 →
      exit (cmd_translate gcps input_path (os_path_join output_dir "temp.vrt")) = 0) ∧
    (cmd_tiles (os_path_join output_dir "warped.tif") (os_path_join output_dir "tiles")
        ∈ (run_gdal_pipeline exit input_path output_dir gcps).2 →
      exit (cmd_translate gcps input_path (os_path_join output_dir "temp.vrt")) = 0 ∧
      exit (cmd_warp (os_path_join output_dir "temp.vrt")
        (os_path_join output_dir "warped.tif")) = 0) := by
  have hWT := cmd_warp_ne_translate gcps input_path
    (os_path_join output_dir "temp.vrt") (os_path_join output_dir "temp.vrt")
    (os_path_join output_dir "warped.tif")
  have hTiT := cmd_tiles_ne_translate gcps input_path
    (os_path_join output_dir "temp.vrt") (os_path_join output_dir "warped.tif")
    (os_path_join output_dir "tiles")
  have hTiW := cmd_tiles_ne_warp (os_path_join output_dir "warped.tif")
    (os_path_join output_dir "tiles") (os_path_join output_dir "temp.vrt")
    (os_path_join output_dir "warped.tif")
  unfold run_gdal_pipeline
  dsimp only
  by_cases hT : exit (cmd_translate gcps input_path (os_path_join output_dir "temp.vrt")) ≠ 0
  · rw [if_pos hT]
    exact ⟨fun _ => ⟨rfl, rfl, by simp [hWT], by simp [hTiT]⟩,
      fun hmem => absurd (by simpa using hmem) hWT,
      fun hmem => absurd (by simpa using hmem) hTiT⟩
  · rw [if_neg hT]
    push_neg at hT
    by_cases hW : exit (cmd_warp (os_path_join output_dir "temp.vrt")
        (os_path_join output_dir "warped.tif")) ≠ 0
    · rw [if_pos hW]
      refine ⟨fun habs => absurd hT habs, fun _ => hT, fun hmem => ?_⟩
      rcases (by simpa using hmem : _ ∨ _) with h1 | h2
      · exact absurd h1 hTiT
      · exact absurd h2 hTiW
    · rw [if_neg hW]
      push_neg at hW
      by_cases hTi : exit (cmd_tiles (os_path_join output_dir "warped.tif")
          (os_path_join output_dir "tiles")) ≠ 0
      · rw [if_pos hTi]
        exact ⟨fun habs => absurd hT habs, fun _ => hT, fun _ => ⟨hT, hW⟩⟩
      · rw [if_neg hTi]
        exact ⟨fun habs => absurd hT habs, fun _ => hT, fun _ => ⟨hT, hW⟩⟩

/-- Witness for C3: with an oracle failing every command, the embed
failure produces the single-command trace. -/
theorem run_gdal_pipeline_stage_ordering_witness :
    (run_gdal_pipeline (fun _ => 1) "in.jpg" "/out" []).1 =
        Except.error ⟨cmd_translate [] "in.jpg" (os_path_join "/out" "temp.vrt"), 1⟩ ∧
    (run_gdal_pipeline (fun _ => 1) "in.jpg" "/out" []).2 =
        [cmd_translate [] "in.jpg" (os_path_join "/out" "temp.vrt")] := by
  have h := (run_gdal_pipeline_stage_ordering (fun _ => 1) "in.jpg" "/out" []).1
    (by norm_num)
  exact ⟨h.1, h.2.1⟩

/-- C4 counterexample: for the collinear pixel points
`(0,0) (1,1) (2,2)` (design-matrix determinant 0), `solve_affine`
does NOT report a singular-system failure: `np.linalg.lstsq` returns
the finite minimum-norm least-squares solution, so the call returns a
coefficient dictionary — here `(1/2, 1/2, 0)` for both systems. -/
theorem solve_affine_collinear_counterexample :
    det3r ((0 : ℚ), (0 : ℚ), (1 : ℚ)) (1, 1, 1) (2, 2, 1) = 0 ∧
    solve_affine [(0, 0), (1, 1), (2, 2)] [(0, 0), (1, 1), (2, 2)] =
      some ⟨1/2, 1/2, 0, 1/2, 1/2, 0⟩ := by
  constructor
  · norm_num [det3r]
  · norm_num [solve_affine, solve_affine_run, designMatrix, lstsq, minNormSolution,
      pinvSolve, pinv3cols, dotl, smul, vsub, vadd, det3r]

/-- C4 (amended): for 3 or more pixel points with a geo list of the
same length — in particular for any collinear configuration —
`solve_affine` neither crashes nor returns `None`: `lstsq` always
returns the (finite) minimum-norm least-squares solution, so a
coefficient dictionary is returned and the `LinAlgError`
(SingularSystem) handler is never reached. -/
theorem solve_affine_collinear_still_solves (px gs : List (ℚ × ℚ))
    (hlen : px.length = gs.length) (h3 : 3 ≤ px.length) :
    ∃ c : Coeffs, solve_affine px gs = some c := by
  have h1 : ¬(px.length < 3 ∨ gs.length < 3) := by omega
  have run_eq : solve_affine_run px gs =
      .ok ⟨(minNormSolution (designMatrix px) (gs.map (·.2))).1,
           (minNormSolution (designMatrix px) (gs.map (·.2))).2.1,
           (minNormSolution (designMatrix px) (gs.map (·.2))).2.2,
           (minNormSolution (designMatrix px) (gs.map (·.1))).1,
           (minNormSolution (designMatrix px) (gs.map (·.1))).2.1,
           (minNormSolution (designMatrix px) (gs.map (·.1))).2.2⟩ := by
    simp only [solve_affine_run, lstsq]
    rw [if_neg h1, if_neg (by simp [designMatrix, hlen]),
      if_neg (by simp [designMatrix, hlen])]
  refine ⟨⟨(minNormSolution (designMatrix px) (gs.map (·.2))).1,
    (minNormSolution (designMatrix px) (gs.map (·.2))).2.1,
    (minNormSolution (designMatrix px) (gs.map (·.2))).2.2,
    (minNormSolution (designMatrix px) (gs.map (·.1))).1,
    (minNormSolution (designMatrix px) (gs.map (·.1))).2.1,
    (minNormSolution (designMatrix px) (gs.map (·.1))).2.2⟩, ?_⟩
  simp [solve_affine, run_eq]

/-- Witness for the amended C4 at the collinear input. -/
theorem solve_affine_collinear_still_solves_witness :
    ∃ c : Coeffs,
      solve_affine [(0, 0), (1, 1), (2, 2)] [(0, 0), (1, 1), (2, 2)] = some c :=
  solve_affine_collinear_still_solves [(0, 0), (1, 1), (2, 2)]
    [(0, 0), (1, 1), (2, 2)] (by rfl) (by norm_num)

/-- C7 counterexample: pixel and geo lists of unequal lengths 4 and 3
violate the precondition, but the resulting failure is the
`except np.linalg.LinAlgError` path (from `lstsq`'s shape check), not
the `ValueError("At least 3 points required")` that realises
`InsufficientPoints`. -/
theorem solve_affine_length_mismatch_counterexample :
    solve_affine_run [(0, 0), (1, 0), (0, 1), (1, 1)] [(0, 0), (1, 0), (0, 1)] =
      SolveOutcome.linAlgError ∧
    SolveOutcome.linAlgError ≠ SolveOutcome.otherError "At least 3 points required" :=
  ⟨by rfl, fun h => SolveOutcome.noConfusion h⟩

/-- C7 (amended): every violation of the precondition
`len(pixel_points) == len(geo_points) >= 3` yields `None` (no
coefficients); the `InsufficientPoints` diagnosis (the raised and
caught `"At least 3 points required"` error) occurs exactly when one
of the lists has fewer than 3 points, while a length mismatch with
both lists ≥ 3 surfaces as a linear-algebra error instead, also with
no coefficients. -/
theorem solve_affine_precondition_violation (px gs : List (ℚ × ℚ)) :
    (px.length < 3 ∨ gs.length < 3 →
      solve_affine_run px gs = .otherError "At least 3 points required" ∧
      solve_affine px gs = none) ∧
    (¬(px.length = gs.length ∧ 3 ≤ px.length) → solve_affine px gs = none) := by
  constructor
  · intro h
    have run_eq : solve_affine_run px gs = .otherError "At least 3 points required" := by
      simp only [solve_affine_run]; rw [if_pos h]
    exact ⟨run_eq, by simp [solve_affine, run_eq]⟩
  · intro h
    by_cases hlt : px.length < 3 ∨ gs.length < 3
    · have run_eq : solve_affine_run px gs = .otherError "At least 3 points required" := by
        simp only [solve_affine_run]; rw [if_pos hlt]
      simp [solve_affine, run_eq]
    · push_neg at hlt
      have hne : px.length ≠ gs.length := by
        intro he
        exact h ⟨he, hlt.1⟩
      have run_eq : solve_affine_run px gs = .linAlgError := by
        simp only [solve_affine_run, lstsq]
        rw [if_neg (by omega : ¬(px.length < 3 ∨ gs.length < 3)),
          if_pos (by simpa [designMatrix] using hne)]
      simp [solve_affine, run_eq]

/-- Witness for the amended C7 on a 2-point input. -/
theorem solve_affine_precondition_violation_witness :
    solve_affine_run [((0 : ℚ), (0 : ℚ)), (1, 1)] [((0 : ℚ), (0 : ℚ))] =
        .otherError "At least 3 points required" ∧
    solve_affine [((0 : ℚ), (0 : ℚ)), (1, 1)] [((0 : ℚ), (0 : ℚ))] = none :=
  (solve_affine_precondition_violation [(0, 0), (1, 1)] [(0, 0)]).1 (by simp)

/-- C10: `solve_affine` is total at its boundary: for every pair of
input lists it returns either a dictionary with exactly the six keys
`A B C D E F` or `None`; no exception escapes (the internal
`ValueError` for too few points in particular is caught by the
generic handler and mapped to `None`). -/
theorem solve_affine_total (px gs : List (ℚ × ℚ)) :
    ((∃ A B C D E F : ℚ, solve_affine px gs = some ⟨A, B, C, D, E, F⟩) ∨
        solve_affine px gs = none) ∧
    (px.length < 3 ∨ gs.length < 3 → solve_affine px gs = none) := by
  constructor
  · cases h : solve_affine px gs with
    | some c => exact Or.inl ⟨c.A, c.B, c.C, c.D, c.E, c.F, rfl⟩
    | none => exact Or.inr rfl
  · intro h
    have run_eq : solve_affine_run px gs = .otherError "At least 3 points required" := by
      simp only [solve_affine_run]; rw [if_pos h]
    simp [solve_affine, run_eq]

/-- Witness for C10's implication clause on empty inputs. -/
theorem solve_affine_total_witness : solve_affine [] [] = none :=
  (solve_affine_total [] []).2 (by simp)

/-- C5 counterexample: a request whose two GCPs make the solver fail
(`solve_affine` returns `None`) but whose pipeline succeeds is
answered with `200 {status: success, affine_matrix: null}` — not with
a 500 — so a solver failure alone does not produce an error response,
and a 200 success response can carry no coefficient dictionary. -/
theorem verify_pipeline_solver_failure_counterexample :
    solve_affine [((0 : ℚ), (0 : ℚ)), (1, 1)] [((0 : ℚ), (0 : ℚ)), (1, 1)] = none ∧
    (verify_pipeline (fun _ => 0)
        ⟨some "a.jpg", some "/out", some [⟨(0, 0), (0, 0)⟩, ⟨(1, 1), (1, 1)⟩]⟩).1 =
      (VerifyResponse.success none, 200) :=
  ⟨rfl, rfl⟩

/-- C5 (amended): with all fields present (and truthy), the
verification endpoint returns 500 with the caught error exactly when
`run_gdal_pipeline` fails, and returns
`200 {status: success, affine_matrix: ...}` exactly when the pipeline
succeeds — where `affine_matrix` is whatever `solve_affine` returned,
possibly `null`; a solver failure alone never yields a 500. -/
theorem verify_pipeline_status (exit : List String → Int) (ip od : String)
    (gcps : List GCP) (hip : ip ≠ "") (hod : od ≠ "") (hg : gcps ≠ []) :
    (∀ e, (run_gdal_pipeline exit ip od gcps).1 = Except.error e →
      (verify_pipeline exit ⟨some ip, some od, some gcps⟩).1 =
        (VerifyResponse.failed e, 500)) ∧
    (∀ t, (run_gdal_pipeline exit ip od gcps).1 = Except.ok t →
      (verify_pipeline exit ⟨some ip, some od, some gcps⟩).1 =
        (VerifyResponse.success
          (solve_affine (gcps.map (·.pixel)) (gcps.map (·.geo))), 200)) := by
  have hcond : ¬(ip = "" ∨ od = "" ∨ gcps = []) := by simp [hip, hod, hg]
  constructor
  · intro e he
    simp only [verify_pipeline]
    rw [if_neg hcond]
    rw [he]
  · intro t ht
    simp only [verify_pipeline]
    rw [if_neg hcond]
    rw [ht]

/-- Witness for the amended C5: a failing embed stage yields the 500
response carrying the failed command. -/
theorem verify_pipeline_status_witness :
    (verify_pipeline (fun _ => 1)
        ⟨some "a.jpg", some "/out", some [⟨(0, 0), (0, 0)⟩]⟩).1 =
      (VerifyResponse.failed ⟨cmd_translate [⟨(0, 0), (0, 0)⟩] "a.jpg"
          (os_path_join "/out" "temp.vrt"), 1⟩, 500) :=
  (verify_pipeline_status (fun _ => 1) "a.jpg" "/out" [⟨(0, 0), (0, 0)⟩]
      (by simp) (by simp) (by simp)).1
    ⟨cmd_translate [⟨(0, 0), (0, 0)⟩] "a.jpg" (os_path_join "/out" "temp.vrt"), 1⟩ rfl

/-- C6: a failure of `solve_affine` is non-fatal to the verification
endpoint: the handler does not raise, `run_gdal_pipeline` is still
invoked afterwards with the same GCPs (its embed command appears in
the event trace, right after the solver call), and the response
status is decided solely by the pipeline's outcome. -/
theorem solver_failure_nonfatal (exit : List String → Int) (ip od : String)
    (gcps : List GCP) (hip : ip ≠ "") (hod : od ≠ "") (hg : gcps ≠ [])
    (hsolve : solve_affine (gcps.map (·.pixel)) (gcps.map (·.geo)) = none) :
    (verify_pipeline exit ⟨some ip, some od, some gcps⟩).2 =
        Event.solveCall (gcps.map (·.pixel)) (gcps.map (·.geo))
          :: (run_gdal_pipeline exit ip od gcps).2.map Event.exec ∧
    Event.exec (cmd_translate gcps ip (os_path_join od "temp.vrt"))
        ∈ (verify_pipeline exit ⟨some ip, some od, some gcps⟩).2 ∧
    (∀ t, (run_gdal_pipeline exit ip od gcps).1 = Except.ok t →
      (verify_pipeline exit ⟨some ip, some od, some gcps⟩).1 =
        (VerifyResponse.success none, 200)) ∧
    (∀ e, (run_gdal_pipeline exit ip od gcps).1 = Except.error e →
      (verify_pipeline exit ⟨some ip, some od, some gcps⟩).1 =
        (VerifyResponse.failed e, 500)) := by
  have hcond : ¬(ip = "" ∨ od = "" ∨ gcps = []) := by simp [hip, hod, hg]
  have htrace : (verify_pipeline exit ⟨some ip, some od, some gcps⟩).2 =
      Event.solveCall (gcps.map (·.pixel)) (gcps.map (·.geo))
        :: (run_gdal_pipeline exit ip od gcps).2.map Event.exec := by
    simp only [verify_pipeline]
    rw [if_neg hcond]
    cases hr : (run_gdal_pipeline exit ip od gcps).1 with
    | error e => rfl
    | ok t => rfl
  refine ⟨htrace, ?_, ?_, ?_⟩
  · rw [htrace]
    exact List.mem_cons_of_mem _
      (List.mem_map_of_mem _ (run_gdal_pipeline_trace_mem exit ip od gcps))
  · intro t ht
    simp only [verify_pipeline]
    rw [if_neg hcond]
    rw [ht, hsolve]
  · intro e he
    simp only [verify_pipeline]
    rw [if_neg hcond]
    rw [he]

/-- Witness for C6: two GCPs (solver fails with too few points),
pipeline succeeding — tiling proceeds and the endpoint answers 200
with a null matrix. -/
theorem solver_failure_nonfatal_witness :
    (verify_pipeline (fun _ => 0)
        ⟨some "a.jpg", some "/out", some [⟨(0, 0), (0, 0)⟩, ⟨(1, 1), (1, 1)⟩]⟩).1 =
      (VerifyResponse.success none, 200) :=
  (solver_failure_nonfatal (fun _ => 0) "a.jpg" "/out"
      [⟨(0, 0), (0, 0)⟩, ⟨(1, 1), (1, 1)⟩]
      (by simp) (by simp) (by simp) (by rfl)).2.2.1 _ rfl

/-- C8: a request missing any of `image_path`, `output_dir` or `gcps`
is answered 400 `"Missing arguments"` and nothing else happens:
the event trace is empty, so neither `solve_affine` nor
`run_gdal_pipeline` is invoked. -/
theorem verify_pipeline_missing_field (exit : List String → Int) (req : VerifyRequest)
    (h : req.image_path = none ∨ req.output_dir = none ∨ req.gcps = none) :
    verify_pipeline exit req = ((VerifyResponse.missingArguments, 400), []) := by
  obtain ⟨ip, od, gc⟩ := req
  cases ip <;> cases od <;> cases gc <;> simp_all [verify_pipeline]

/-- Witness for C8 with `image_path` absent. -/
theorem verify_pipeline_missing_field_witness :
    verify_pipeline (fun _ => 0) ⟨none, some "/out", some [⟨(0, 0), (0, 0)⟩]⟩ =
      ((VerifyResponse.missingArguments, 400), []) :=
  verify_pipeline_missing_field (fun _ => 0) _ (Or.inl rfl)

/-- A truthy JSON body never produces a 400 from `index`: every such
branch returns 200 or raises (500). -/
lemma index_truthy_not_400 (ub : String) (j : Json) (ht : j.truthy = true) :
    (index ub (some j)).1 = 200 ∨ (index ub (some j)).1 = 500 := by
  simp only [index]
  rw [if_neg (by simp [ht])]
  cases j with
  | null => simp [Json.truthy] at ht
  | bool b2 => right; rfl
  | num q => right; rfl
  | str s => right; rfl
  | arr xs => right; rfl
  | obj kvs =>
    dsimp only
    by_cases hk : isStorageObjectKind kvs = true
    · rw [if_pos hk]
      cases hb : kvs.lookup "bucket" with
      | none => right; rfl
      | some bucket =>
        cases hn : kvs.lookup "name" with
        | none => right; rfl
        | some nm =>
          cases bucket with
          | str s =>
            dsimp only
            by_cases hs : s = ub
            · rw [if_pos hs]
              cases nm with
              | str s2 => left; rfl
              | null => right; rfl
              | bool b3 => right; rfl
              | num q2 => right; rfl
              | arr ys => right; rfl
              | obj o2 => right; rfl
            · rw [if_neg hs]; left; rfl
          | null => left; rfl
          | bool b3 => left; rfl
          | num q2 => left; rfl
          | arr ys => left; rfl
          | obj o2 => left; rfl
    · rw [if_neg hk]; left; rfl

/-- C9 counterexample: the empty JSON object is a valid JSON body,
yet the trigger endpoint answers 400 (`"Bad Request: no JSON"`, the
falsy-body branch) rather than 200; and the string body `"hello"` is
valid, truthy JSON yet raises (`AttributeError` on `event.get`),
surfacing as 500, not 200. -/
theorem index_valid_json_counterexample :
    index "antigravity-maps-upload" (some (Json.obj [])) =
        (400, "Bad Request: no JSON") ∧
    ((400 : Nat), "Bad Request: no JSON") ≠ ((200 : Nat), "OK") ∧
    index "antigravity-maps-upload" (some (Json.str "hello")) =
        (500, "Internal Server Error") := by
  refine ⟨rfl, ?_, rfl⟩
  intro h
  exact absurd (congrArg Prod.fst h) (by norm_num)

/-- C9 (amended): the trigger endpoint answers 400 exactly when the
body is not valid JSON or parses to a falsy value (`null`, `false`,
`0`, `""`, `[]`, `{}`); a truthy JSON object that does not declare
`kind == "storage#object"` gets `200 "OK"`; the remaining truthy
bodies (non-objects, or storage events missing `bucket`/`name` or
with a non-string `name` for the upload bucket) raise and surface as
500, never as 200. -/
theorem index_status (ub : String) (b : Option Json) :
    ((index ub b).1 = 400 ↔ b = none ∨ ∃ j, b = some j ∧ j.truthy = false) ∧
    (∀ kvs, b = some (Json.obj kvs) → (Json.obj kvs).truthy = true →
      isStorageObjectKind kvs = false → index ub b = (200, "OK")) := by
  constructor
  · cases b with
    | none => simp [index]
    | some j =>
      by_cases ht : j.truthy = true
      · have h400 : ¬(index ub (some j)).1 = 400 := by
          rcases index_truthy_not_400 ub j ht with h2 | h2 <;> omega
        simp only [h400, false_iff]
        rintro (h | ⟨j2, hj2, hf⟩)
        · exact Option.noConfusion h
        · rw [Option.some_inj] at hj2
          rw [hj2] at ht
          rw [ht] at hf
          exact Bool.noConfusion hf
      · have hf : j.truthy = false := by
          cases hj : j.truthy
          · rfl
          · exact absurd hj ht
        have hidx : index ub (some j) = (400, "Bad Request: no JSON") := by
          simp only [index]
          rw [if_pos (by simp [hf])]
        rw [hidx]
        simp only [true_iff]
        exact Or.inr ⟨j, rfl, hf⟩
  · intro kvs hb htr hk
    subst hb
    simp only [index]
    rw [if_neg (by simp [htr]), if_neg (by simp [hk])]

/-- Witness for the amended C9: a truthy object without a
`storage#object` kind is acknowledged with `200 "OK"`. -/
theorem index_status_witness :
    index "antigravity-maps-upload" (some (Json.obj [("x", Json.num 1)])) =
      (200, "OK") :=
  (index_status "antigravity-maps-upload"
      (some (Json.obj [("x", Json.num 1)]))).2
    [("x", Json.num 1)] rfl (by rfl) (by rfl)
